import Mathlib

/-!
Shallow embedding of the oneseismic fetch-and-cache layer:
the blob cache (`cacheEntry`, `blobCache`, `ristrettoCache`, `noCache`),
the Azure storage client (`AzStorage.Get`, `AzStorage.download`,
`newCacheKey`) and the error translator (`UnpackAzStorageError`),
together with the manifest-first calling discipline.

Go byte slices are modelled as `List Nat`; Go `*string` as `Option String`;
Go's multi-value returns become structures; the side effects of `Get`
(cache lookups, outbound downloads, detached cache writes) are recorded as
explicit traces so that properties about "no network call" or "no cache
write" are statable.  The origin blob store and the injected cache are
oracles (plain functions) supplied as parameters.
-/

namespace Oneseismic

/-- Byte slices (`[]byte`) are modelled as lists of bytes-as-naturals. -/
abbrev Chunk := List Nat

/-- `cacheEntry` from cache.go: a payload `chunk []byte` together with the
validator `etag *string` (a nil-able pointer, hence `Option`).  The Go zero
value `cacheEntry{}` is `⟨[], none⟩`. -/
structure cacheEntry where
  chunk : Chunk
  etag  : Option String
deriving DecidableEq, Repr

/-- The Go zero value `cacheEntry{}`. -/
def cacheEntry.zero : cacheEntry := ⟨[], none⟩

/-- `url.URL`, restricted to the components this layer reads: `Host`,
`Path` and `RawQuery`.  Per Go's net/url semantics, `path` of an absolute
URL such as `http://h/p` is `/p`, retaining the leading slash. -/
structure URL where
  host     : String
  path     : String
  rawQuery : String
deriving DecidableEq, Repr

/-- `newCacheKey` from the storage client:
`fmt.Sprintf("%s/%s", bloburl.Host, bloburl.Path)`. -/
def newCacheKey (bloburl : URL) : String :=
  bloburl.host ++ "/" ++ bloburl.path

/-- Drop everything up to and including the first `://`. -/
def dropScheme : List Char → List Char
  | ':' :: '/' :: '/' :: rest => rest
  | _ :: rest => dropScheme rest
  | [] => []

/-- The characters before the first occurrence of `c`. -/
def takeUntil (c : Char) : List Char → List Char
  | [] => []
  | x :: rest => if x = c then [] else x :: takeUntil c rest

/-- The characters after the first occurrence of `c` (empty if absent). -/
def dropAfter (c : Char) : List Char → List Char
  | [] => []
  | x :: rest => if x = c then rest else dropAfter c rest

/-- The suffix starting at the first occurrence of `c` (empty if absent). -/
def dropUntil (c : Char) : List Char → List Char
  | [] => []
  | x :: rest => if x = c then x :: rest else dropUntil c rest

/-- Parse of a simple absolute URL `scheme://host/path?query` (no port,
userinfo or fragment), following Go's `url.Parse`: the path component
keeps its leading slash, the query string is what follows the first `?`. -/
def urlParse (s : String) : URL :=
  let rest := dropScheme s.data
  let hostpath := takeUntil '?' rest
  let query := dropAfter '?' rest
  ⟨⟨takeUntil '/' hostpath⟩, ⟨dropUntil '/' hostpath⟩, ⟨query⟩⟩

/-- Go error values as seen by this layer: a structured
`azblob.StorageError` carrying an HTTP status, a generic wrapping envelope
(such as `azblob.InternalError`) around an inner error, or any other error. -/
inductive GoError where
  | storageError (status : Nat) (msg : String)
  | wrapped (inner : GoError)
  | plain (msg : String)
deriving DecidableEq, Repr

/-- `err.Error()`, abstracted: the message text of an error value. -/
def GoError.message : GoError → String
  | .storageError _ m => m
  | .wrapped e => e.message
  | .plain m => m

/-- `errors.As(err, &stgErr)` for target type `*azblob.StorageError`:
walk the unwrap chain and surface the first structured storage error. -/
def errorsAsStorageError : GoError → Option (Nat × String)
  | .storageError st m => some (st, m)
  | .wrapped inner => errorsAsStorageError inner
  | .plain _ => none

/-- `UnpackAzStorageError` from the util package: if the error wraps an
`azblob.StorageError`, return the unwrapped structured error; otherwise
return the original error unchanged. -/
def UnpackAzStorageError (err : GoError) : GoError :=
  match errorsAsStorageError err with
  | some (st, m) => .storageError st m
  | none => err

/-- Modelled from the spec: the domain error taxonomy of the `internal`
package (whose source is not under src/), as used by the storage client:
`internal.InternalError(msg)` / `internal.NewInternalError()` (message
`none`), `internal.NotFound(msg)`, and
`internal.PermissionDeniedFromStatus(status)`. -/
inductive DomainError where
  | internalError (msg : Option String)
  | notFound (msg : String)
  | permissionDenied (status : Nat)
deriving DecidableEq, Repr

/-- The origin blob store's answer to a single conditional download:
either success with a body and a (possibly absent) validator, or an error
value as produced by `azblob.BlobClient.Download`. -/
inductive OriginResponse where
  | success (chunk : Chunk) (etag : Option String)
  | failure (err : GoError)
deriving DecidableEq, Repr

/-- The origin oracle: what the blob store answers for a given locator
when presented a given validator (`IfNoneMatch`) as precondition. -/
abbrev Origin := URL → Option String → OriginResponse

/-- The injected cache's `get` capability, as the storage client sees it:
`get(key) -> (cacheEntry, bool)`. -/
abbrev CacheGet := String → cacheEntry × Bool

/-- `AzStorage.download`: issue the conditional download, presenting
`etag` as `IfNoneMatch`. On transport failure the error is passed through
`UnpackAzStorageError` and the zero entry is returned, mirroring
`return cacheEntry{}, util.UnpackAzStorageError(err)`. -/
def download (origin : Origin) (bloburl : URL) (etag : Option String) :
    cacheEntry × Option GoError :=
  match origin bloburl etag with
  | .success chunk e2 => (⟨chunk, e2⟩, none)
  | .failure err => (cacheEntry.zero, some (UnpackAzStorageError err))

/-- The value `Get` produces for its caller: the `([]byte, error)` pair
(`none` bytes is a nil slice), or a runtime panic (nil-pointer
dereference). -/
inductive GetResult where
  | ret (bytes : Option Chunk) (err : Option DomainError)
  | panics
deriving DecidableEq, Repr

/-- One `Get` call with its observable effects: the returned value, the
cache lookups performed, the outbound downloads issued (locator and
presented validator), and the detached `go cache.set` writes dispatched. -/
structure GetTrace where
  result    : GetResult
  lookups   : List String
  downloads : List (URL × Option String)
  writes    : List (String × cacheEntry)
deriving DecidableEq, Repr

/-- `AzStorage.Get` from the storage client, with the injected cache's
`get` and the origin supplied as oracles and `bloburl : Option URL`
modelling the nil-able pointer.  Mirrors the source line by line: nil
check; key derivation; cache lookup; conditional download presenting
`cached.etag`; then the outcome branch.  In the hit-and-fresh branch the
source logs `*cached.etag`, a nil-pointer dereference when the cached
entry has no etag, modelled as `GetResult.panics`. -/
def AzStorage.Get (cacheGet : CacheGet) (origin : Origin)
    (bloburl : Option URL) : GetTrace :=
  match bloburl with
  | none =>
    ⟨.ret (some []) (some (.internalError (some "blob URL is nil"))), [], [], []⟩
  | some u =>
    let key := newCacheKey u
    let (cached, hit) := cacheGet key
    let (cold, err) := download origin u cached.etag
    match err with
    | none =>
      if hit then
        match cached.etag with
        | none =>
          ⟨.panics, [key], [(u, cached.etag)], []⟩
        | some _ =>
          ⟨.ret none (some (.internalError none)), [key], [(u, cached.etag)], []⟩
      else
        ⟨.ret (some cold.chunk) none, [key], [(u, cached.etag)], [(key, cold)]⟩
    | some e =>
      match e with
      | .storageError status _ =>
        if status = 304 then
          ⟨.ret (some cached.chunk) none, [key], [(u, cached.etag)], []⟩
        else if status = 404 then
          ⟨.ret none (some (.notFound
              ("Not found: " ++ u.host ++ "/" ++ u.path))),
            [key], [(u, cached.etag)], []⟩
        else if status = 403 then
          ⟨.ret none (some (.permissionDenied status)),
            [key], [(u, cached.etag)], []⟩
        else if status = 401 then
          ⟨.ret none (some (.permissionDenied status)),
            [key], [(u, cached.etag)], []⟩
        else
          ⟨.ret none (some (.internalError (some e.message))),
            [key], [(u, cached.etag)], []⟩
      | _ =>
        ⟨.ret none (some (.internalError (some e.message))),
          [key], [(u, cached.etag)], []⟩

/-- `noCache.get` from cache.go: always a miss with the zero entry. -/
def noCache.get : CacheGet := fun _ => (cacheEntry.zero, false)

/-- Modelled from the spec: the state of the bounded (ristretto-backed)
backend.  The ristretto library itself is external third-party code not
under src/; per the spec's backend contract, `set` stores the entry and
`get` finds it unless an eviction intervened, so the state is a plain
key-to-entry map with eviction as a separate explicit step. -/
structure RistrettoState where
  entries : String → Option cacheEntry

/-- `ristrettoCache.set` from cache.go over the modelled backend state:
`c.Set(key, val, 0)` stores the entry under the key. -/
def ristrettoCache.set (s : RistrettoState) (key : String)
    (val : cacheEntry) : RistrettoState :=
  ⟨fun k => if k = key then some val else s.entries k⟩

/-- `ristrettoCache.get` from cache.go: `v, hit := c.Get(key)`, casting
the stored value back and returning the zero entry on a miss. -/
def ristrettoCache.get (s : RistrettoState) (key : String) :
    cacheEntry × Bool :=
  match s.entries key with
  | some v => (v, true)
  | none => (cacheEntry.zero, false)

/-- Modelled from the spec: an eviction by the backend's own policy drops
a key.  Used only to make "no intervening eviction" meaningful. -/
def ristrettoCache.evict (s : RistrettoState) (key : String) :
    RistrettoState :=
  ⟨fun k => if k = key then none else s.entries k⟩

/-- `FetchManifest` from the util package: download the blob
`manifest.json` of the container, unwrapping a failure through
`UnpackAzStorageError`.  The container client is an oracle from container
locator and blob name to the download outcome. -/
def FetchManifest (dl : URL → String → Except GoError Chunk)
    (containerURL : URL) : Except GoError Chunk :=
  match dl containerURL "manifest.json" with
  | .error e => .error (UnpackAzStorageError e)
  | .ok chunk => .ok chunk

/-- One request's fetch activity: the manifest outcome and the fragment
fetches that were issued. -/
structure RequestTrace where
  manifest        : Except GoError Chunk
  fragmentFetches : List URL
deriving Repr

/-- Modelled from the spec: the calling discipline of the manifest gate
(the handler that orders manifest before fragments is not under src/).
The manifest fetch is synchronous and first; fragment fetches are issued
only after it succeeds, and any manifest error aborts the request. -/
def processRequest (dl : URL → String → Except GoError Chunk)
    (containerURL : URL) (fragments : List URL) : RequestTrace :=
  match FetchManifest dl containerURL with
  | .error e => ⟨.error e, []⟩
  | .ok m => ⟨.ok m, fragments⟩

/-! Concrete fixtures used by witnesses and counterexamples. -/

/-- The parsed locator `http://h/p?a=1`. -/
def urlFix : URL := ⟨"h", "/p", "a=1"⟩

/-- A cached payload. -/
def chunkC : Chunk := [1, 2, 3]

/-- A fresh payload from the origin. -/
def chunkB : Chunk := [4, 5]

/-- A cache holding `{payload = chunkC, validator = "V"}` for `urlFix`. -/
def cacheHitV : CacheGet := fun k =>
  if k = newCacheKey urlFix then (⟨chunkC, some "V"⟩, true)
  else (cacheEntry.zero, false)

/-- A cache holding a hit entry for `urlFix` whose validator is nil. -/
def cacheHitNilEtag : CacheGet := fun k =>
  if k = newCacheKey urlFix then (⟨chunkC, none⟩, true)
  else (cacheEntry.zero, false)

/-- An origin that always answers "not modified" (an azblob error with
status 304, inside the generic wrapping envelope). -/
def origin304 : Origin := fun _ _ =>
  .failure (.wrapped (.storageError 304 "not modified"))

/-- An origin that always answers success with fresh bytes `chunkB` and
validator `"V2"`. -/
def originFresh : Origin := fun _ _ => .success chunkB (some "V2")

/-- An origin that always fails with status 404. -/
def origin404 : Origin := fun _ _ => .failure (.storageError 404 "nf")

/-- A container client whose downloads always fail with status 403. -/
def dlDenied : URL → String → Except GoError Chunk := fun _ _ =>
  .error (.storageError 403 "denied")

/-! Theorems. -/

/-- C5 counterexample: the locators `http://h/p?a=1` and `http://h/p?a=2`
do derive the identical cache key, but that key is not the literal string
`"h/p"` (it is `"h//p"`, since the parsed path keeps its leading slash). -/
theorem c5_key_literal_counterexample :
    newCacheKey (urlParse "http://h/p?a=1") = newCacheKey (urlParse "http://h/p?a=2")
    ∧ newCacheKey (urlParse "http://h/p?a=1") ≠ "h/p" := by
  decide

/-- C5 (amended): any two locators agreeing on host and path derive the
identical cache key, regardless of query string; for `http://h/p?a=1` and
`http://h/p?a=2` that shared key is the literal string `"h//p"` — the
format is `<host>/<path>` where the parsed path component retains its
leading slash, and query parameters are never included. -/
theorem c5_cache_key_query_independent :
    (∀ u1 u2 : URL, u1.host = u2.host → u1.path = u2.path →
      newCacheKey u1 = newCacheKey u2)
    ∧ newCacheKey (urlParse "http://h/p?a=1") = "h//p"
    ∧ newCacheKey (urlParse "http://h/p?a=2") = "h//p" := by
  refine ⟨fun u1 u2 hh hp => ?_, by decide, by decide⟩
  simp [newCacheKey, hh, hp]

/-- C5 witness: the amended key-equality at the two concrete locators. -/
theorem c5_cache_key_query_independent_witness :
    newCacheKey (urlParse "http://h/p?a=1") = newCacheKey (urlParse "http://h/p?a=2") :=
  c5_cache_key_query_independent.1 _ _ (by decide) (by decide)

/-- C6: `UnpackAzStorageError` either recovers the structured
status-bearing storage error wrapped inside the envelope and returns it,
or returns the original error value unchanged when no storage error is
wrapped. -/
theorem c6_unpack_recovers_or_identity (err : GoError) :
    (∃ st m, errorsAsStorageError err = some (st, m)
      ∧ UnpackAzStorageError err = .storageError st m)
    ∨ (errorsAsStorageError err = none ∧ UnpackAzStorageError err = err) := by
  match h : errorsAsStorageError err with
  | some (st, m) =>
    exact Or.inl ⟨st, m, rfl, by simp [UnpackAzStorageError, h]⟩
  | none =>
    exact Or.inr ⟨rfl, by simp [UnpackAzStorageError, h]⟩

/-- C7: a nil locator yields an immediate InternalError with an empty
(non-nil) byte slice, and no cache lookup, no download and no cache write
are performed — for every cache and origin, so the outcome is independent
of both. -/
theorem c7_nil_locator_internal_error (cacheGet : CacheGet) (origin : Origin) :
    AzStorage.Get cacheGet origin none =
      ⟨.ret (some []) (some (.internalError (some "blob URL is nil"))),
        [], [], []⟩ :=
  rfl

/-- C8: on the bounded (ristretto-backed) backend, `set(k, v)` immediately
followed by `get(k)`, with no intervening eviction, returns `(v, true)`. -/
theorem c8_ristretto_set_then_get (s : RistrettoState) (k : String)
    (v : cacheEntry) :
    ristrettoCache.get (ristrettoCache.set s k v) k = (v, true) := by
  simp [ristrettoCache.get, ristrettoCache.set]

/-- C9: whenever the manifest fetch fails with any error, the request is
aborted and no fragment fetch is issued; the manifest fetch is the first,
synchronous step of `processRequest` and fragments are fetched only after
it succeeds. -/
theorem c9_manifest_gate (dl : URL → String → Except GoError Chunk)
    (cu : URL) (frags : List URL) (e : GoError)
    (hfail : FetchManifest dl cu = .error e) :
    processRequest dl cu frags = ⟨.error e, []⟩ := by
  simp [processRequest, hfail]

/-- C1 counterexample: with a cache hit whose entry carries a nil
validator and an origin that answers with a full fresh payload, `Get`
does not return an InternalError — it dereferences the nil validator for
logging and panics. -/
theorem c1_nil_validator_counterexample :
    (AzStorage.Get cacheHitNilEtag originFresh (some urlFix)).result = .panics
    ∧ (AzStorage.Get cacheHitNilEtag originFresh (some urlFix)).result
        ≠ .ret none (some (.internalError none)) := by
  decide

/-- C1 (amended): when the cache hit's entry carries a (non-nil)
validator and the conditional download nevertheless succeeds with a full
fresh payload, `Get` returns an InternalError with a nil byte slice —
neither the stale cached payload nor the fresh bytes — and dispatches no
cache write. -/
theorem c1_hit_with_fresh_payload_internal_error
    (cacheGet : CacheGet) (origin : Origin)
    (u : URL) (C : Chunk) (V : String) (ch : Chunk) (e2 : Option String)
    (hcache : cacheGet (newCacheKey u) = (⟨C, some V⟩, true))
    (horigin : origin u (some V) = .success ch e2) :
    AzStorage.Get cacheGet origin (some u) =
      ⟨.ret none (some (.internalError none)), [newCacheKey u],
        [(u, some V)], []⟩ := by
  simp [AzStorage.Get, download, hcache, horigin]

/-- C1 witness: the amended statement at the concrete hit cache
`cacheHitV` and the concrete fresh origin. -/
theorem c1_hit_with_fresh_payload_internal_error_witness :
    AzStorage.Get cacheHitV originFresh (some urlFix) =
      ⟨.ret none (some (.internalError none)), [newCacheKey urlFix],
        [(urlFix, some "V")], []⟩ :=
  c1_hit_with_fresh_payload_internal_error cacheHitV originFresh
    urlFix chunkC "V" chunkB (some "V2") (by decide) rfl

/-- C2: with a cached entry `{payload = C, validator = V}` for the derived
key and an origin answering the conditional download (presenting `V`)
with "not modified" (status 304), `Get` returns `C` with no error and
dispatches no cache write. -/
theorem c2_not_modified_serves_cached
    (cacheGet : CacheGet) (origin : Origin)
    (u : URL) (C : Chunk) (V : String) (err : GoError) (m : String)
    (hcache : cacheGet (newCacheKey u) = (⟨C, some V⟩, true))
    (horigin : origin u (some V) = .failure err)
    (h304 : errorsAsStorageError err = some (304, m)) :
    AzStorage.Get cacheGet origin (some u) =
      ⟨.ret (some C) none, [newCacheKey u], [(u, some V)], []⟩ := by
  simp [AzStorage.Get, download, hcache, horigin, UnpackAzStorageError, h304]

/-- C2 witness: the statement at the concrete hit cache `cacheHitV` and
the concrete not-modified origin. -/
theorem c2_not_modified_serves_cached_witness :
    AzStorage.Get cacheHitV origin304 (some urlFix) =
      ⟨.ret (some chunkC) none, [newCacheKey urlFix],
        [(urlFix, some "V")], []⟩ :=
  c2_not_modified_serves_cached cacheHitV origin304 urlFix chunkC "V"
    (.wrapped (.storageError 304 "not modified")) "not modified"
    (by decide) rfl rfl

/-- C3: on a cache miss, when the download succeeds with fresh bytes `B`
and validator `V2`, `Get` returns `(B, nil)` and dispatches exactly the
detached write of the new entry `{payload = B, validator = V2}` under the
derived key; the returned value does not depend on the cache write (the
write is only recorded as a dispatched unit of work, mirroring the
source's `go cache.set`). -/
theorem c3_cold_fetch_returns_and_writes
    (cacheGet : CacheGet) (origin : Origin)
    (u : URL) (e : cacheEntry) (B : Chunk) (V2 : Option String)
    (hcache : cacheGet (newCacheKey u) = (e, false))
    (horigin : origin u e.etag = .success B V2) :
    AzStorage.Get cacheGet origin (some u) =
      ⟨.ret (some B) none, [newCacheKey u], [(u, e.etag)],
        [(newCacheKey u, ⟨B, V2⟩)]⟩ := by
  simp [AzStorage.Get, download, hcache, horigin]

/-- C3 witness: the statement at the no-op cache and the concrete fresh
origin. -/
theorem c3_cold_fetch_returns_and_writes_witness :
    AzStorage.Get noCache.get originFresh (some urlFix) =
      ⟨.ret (some chunkB) none, [newCacheKey urlFix], [(urlFix, none)],
        [(newCacheKey urlFix, ⟨chunkB, some "V2"⟩)]⟩ :=
  c3_cold_fetch_returns_and_writes noCache.get originFresh urlFix
    cacheEntry.zero chunkB (some "V2") rfl rfl

/-- C4 counterexample: status 304 is a "reported status" other than 404,
403 and 401, yet the download error carrying it does not yield an
InternalError — `Get` returns the cached payload with no error. -/
theorem c4_not_modified_counterexample :
    origin304 urlFix (some "V")
      = .failure (.wrapped (.storageError 304 "not modified"))
    ∧ (AzStorage.Get cacheHitV origin304 (some urlFix)).result
        = .ret (some chunkC) none := by
  decide

/-- C4 (amended): every download error surfaced to `Get` is translated
exhaustively: a storage error with status 404 yields NotFound with a
message naming the locator's host and path; 403 or 401 yields
PermissionDenied; any other reported status except 304 (which instead
returns the cached payload with no error) yields InternalError; and an
error not carrying a recognizable status also yields InternalError. -/
theorem c4_error_translation
    (cacheGet : CacheGet) (origin : Origin)
    (u : URL) (cached : cacheEntry) (hit : Bool) (err : GoError)
    (hcache : cacheGet (newCacheKey u) = (cached, hit))
    (horigin : origin u cached.etag = .failure err) :
    (∀ m, errorsAsStorageError err = some (404, m) →
      AzStorage.Get cacheGet origin (some u) =
        ⟨.ret none (some (.notFound ("Not found: " ++ u.host ++ "/" ++ u.path))),
          [newCacheKey u], [(u, cached.etag)], []⟩)
    ∧ (∀ st m, errorsAsStorageError err = some (st, m) → st = 403 ∨ st = 401 →
      AzStorage.Get cacheGet origin (some u) =
        ⟨.ret none (some (.permissionDenied st)),
          [newCacheKey u], [(u, cached.etag)], []⟩)
    ∧ (∀ st m, errorsAsStorageError err = some (st, m) →
        st ≠ 304 → st ≠ 404 → st ≠ 403 → st ≠ 401 →
      AzStorage.Get cacheGet origin (some u) =
        ⟨.ret none (some (.internalError (some m))),
          [newCacheKey u], [(u, cached.etag)], []⟩)
    ∧ (errorsAsStorageError err = none →
      AzStorage.Get cacheGet origin (some u) =
        ⟨.ret none (some (.internalError (some err.message))),
          [newCacheKey u], [(u, cached.etag)], []⟩) := by
  refine ⟨?_, ?_, ?_, ?_⟩
  · intro m h
    simp [AzStorage.Get, download, hcache, horigin, UnpackAzStorageError, h]
  · rintro st m h (rfl | rfl) <;>
      simp [AzStorage.Get, download, hcache, horigin, UnpackAzStorageError, h]
  · intro st m h h304 h404 h403 h401
    simp [AzStorage.Get, download, hcache, horigin, UnpackAzStorageError, h,
      GoError.message, h304, h404, h403, h401]
  · intro h
    have hid : UnpackAzStorageError err = err := by
      simp [UnpackAzStorageError, h]
    rcases err with ⟨st, m⟩ | inner | m
    · simp [errorsAsStorageError] at h
    · simp [AzStorage.Get, download, hcache, horigin, hid]
    · simp [AzStorage.Get, download, hcache, horigin, hid, GoError.message]

/-- C4 witness: the not-found clause at the no-op cache and the concrete
404 origin. -/
theorem c4_error_translation_witness :
    AzStorage.Get noCache.get origin404 (some urlFix) =
      ⟨.ret none (some (.notFound
          ("Not found: " ++ urlFix.host ++ "/" ++ urlFix.path))),
        [newCacheKey urlFix], [(urlFix, none)], []⟩ :=
  (c4_error_translation noCache.get origin404 urlFix cacheEntry.zero false
    (.storageError 404 "nf") rfl rfl).1 "nf" rfl

/-- C10: for every cache state in which the lookup hits with a nil
validator and the download then succeeds with fresh content, `Get`
dereferences the nil validator in the logging statement and panics
instead of returning an InternalError. -/
theorem c10_nil_validator_hit_fresh_panics
    (cacheGet : CacheGet) (origin : Origin)
    (u : URL) (C : Chunk) (ch : Chunk) (e2 : Option String)
    (hcache : cacheGet (newCacheKey u) = (⟨C, none⟩, true))
    (horigin : origin u none = .success ch e2) :
    (AzStorage.Get cacheGet origin (some u)).result = .panics := by
  simp [AzStorage.Get, download, hcache, horigin]

/-- C10 witness: the statement at the concrete nil-validator hit cache
and the concrete fresh origin. -/
theorem c10_nil_validator_hit_fresh_panics_witness :
    (AzStorage.Get cacheHitNilEtag originFresh (some urlFix)).result = .panics :=
  c10_nil_validator_hit_fresh_panics cacheHitNilEtag originFresh
    urlFix chunkC chunkB (some "V2") (by decide) rfl

/-- C9 witness: a manifest fetch denied with status 403 aborts the
request before any of the two fragment fetches is issued. -/
theorem c9_manifest_gate_witness :
    processRequest dlDenied urlFix [urlFix, urlFix] =
      ⟨.error (.storageError 403 "denied"), []⟩ :=
  c9_manifest_gate dlDenied urlFix [urlFix, urlFix]
    (.storageError 403 "denied") rfl

end Oneseismic
